import Mathlib

/-!
Verification of the `ae-score.py` image-scoring pipeline (repository
`heyalexchoi/sd-ext`) against its natural-language specification.

The Python source is shallowly embedded: pure fragments become Lean
functions over `ℚ`, `String` and lists; filesystem and network effects
become explicit values (the cache directory is a list of file names, the
filesystem tree is an inductive type, attempted network calls and file
writes are collected into lists); a Python `raise` becomes an
`Except String` error value.  Scores, which the source keeps as torch
tensors holding floats, are modelled as rationals; image decoding plus
CLIP encoding plus the aesthetic predictor — an opaque external pipeline
from a file name to a scalar — is modelled as an abstract function
`score : String → ℚ`.
-/

/-- Record produced per scored image: the Python dict
`{"file": file, "score": score}` built at line 257 of `ae-score.py`. -/
structure ScoreRecord where
  file : String
  score : ℚ
deriving DecidableEq, Repr

/-- The model-name → download-URL registry `model_to_host`
(lines 26-29 of `ae-score.py`), as an association list in source order. -/
def model_to_host : List (String × String) :=
  [("chadscorer",
    "https://github.com/grexzen/SD-Chad/raw/main/chadscorer.pth"),
   ("sac+logos+ava1-l14-linearMSE",
    "https://github.com/christophschuhmann/improved-aesthetic-predictor/blob/main/sac+logos+ava1-l14-linearMSE.pth?raw=true")]

/-- Observable outcome of `ensure_model`: which URLs were fetched, which
files were written into the cache directory, and whether the call raised.
A `raise ValueError(msg)` is `.error msg`. -/
structure EnsureOutcome where
  netCalls : List String
  writes : List String
  result : Except String Unit
deriving Repr

/-- Embedding of `ensure_model` (lines 62-87 of `ae-score.py`).  The cache
directory is modelled by the list of file names it contains.  The source
first tests `Path(full_file).exists()`; only when the cached file is
absent does it check membership in `model_to_host`, raise `ValueError`
on an unknown name, or download and write the file. -/
def ensure_model (model : String) (cache : List String) : EnsureOutcome :=
  let file := model ++ ".pth"
  if cache.contains file then
    { netCalls := [], writes := [], result := Except.ok () }
  else
    match model_to_host.lookup model with
    | none =>
        { netCalls := [], writes := [],
          result := Except.error
            ("invalid model: " ++ model ++ ". try one of these: " ++
              String.intercalate ", " (model_to_host.map Prod.fst)) }
    | some url =>
        { netCalls := [url], writes := [file], result := Except.ok () }

/-- Embedding of the generator `chunks` defined inside `main`
(lines 241-244 of `ae-score.py`): successive `n`-sized slices
`lst[i : i + n]` for `i = 0, n, 2n, ...`.  Python raises `ValueError`
when `n = 0` (a zero step in `range`); that branch is modelled as `[]`
and every theorem below assumes `1 ≤ n`, matching the CLI `batch_size`
whose default is 5. -/
def chunks (lst : List α) (n : Nat) : List (List α) :=
  if lst.isEmpty then []
  else if n = 0 then []
  else lst.take n :: chunks (lst.drop n) n
termination_by lst.length
decreasing_by
  simp only [List.length_drop]
  rename_i h1 h2
  cases lst with
  | nil => simp at h1
  | cons a t => cases n with
    | zero => exact absurd rfl h2
    | succ m => simp; omega

/-- Per-chunk record emission (lines 246-257 of `ae-score.py`).  The inner
decode loop `for file in files_s` leaves the loop variable `file` bound to
the LAST element of the chunk; the subsequent loop
`for score in ae_scores: scores.append({"file": file, "score": score})`
therefore pairs every score of the chunk with that last file name.
`ae_scores` holds one scalar per image of the chunk in order, modelled as
`files_s.map score`.  An empty chunk emits nothing (and leaves `file`
untouched); `chunks` never yields an empty chunk when `1 ≤ n`. -/
def chunkRecords (score : String → ℚ) (files_s : List String) :
    List ScoreRecord :=
  match files_s.getLast? with
  | some file => (files_s.map score).map (fun s => { file := file, score := s })
  | none => []

/-- Embedding of the scoring loop of `main` (lines 238-264 of
`ae-score.py`).  The progress bar is created only when
`args.no_progress is not True` (line 238), but line 259 calls
`progress_bar.set_postfix(...)` unconditionally on every chunk: when the
bar was never created this raises `NameError`, modelled as an
`Except.error`.  The records appended before the failing call are lost
with the abort. -/
def run_scoring (score : String → ℚ) (no_progress : Bool)
    (files : List String) (batch_size : Nat) :
    Except String (List ScoreRecord) :=
  (chunks files batch_size).foldlM
    (fun acc files_s =>
      let acc := acc ++ chunkRecords score files_s
      if no_progress = true then
        Except.error "NameError: name progress_bar is not defined"
      else
        Except.ok acc)
    []

/-- A filesystem tree: what `os.listdir` / `Path.is_dir` observe.
Directory children appear in filesystem-listing order. -/
inductive FSEntry where
  | file (name : String)
  | dir (name : String) (children : List FSEntry)

/-- The extension allow-list test of `get_files` (lines 302-304 and
307-309 of `ae-score.py`): `full_file.lower().endswith((".jpg", ".jpeg",
".png", ".bmp", ".webp", ".avif"))`. -/
def extOk (s : String) : Bool :=
  s.toLower.endsWith ".jpg" || s.toLower.endsWith ".jpeg" ||
  s.toLower.endsWith ".png" || s.toLower.endsWith ".bmp" ||
  s.toLower.endsWith ".webp" || s.toLower.endsWith ".avif"

/-- Embedding of `os.path.join(a, b)` for the cases arising here: an
absolute `b` replaces `a`; an empty `a` yields `b`; otherwise the parts
are joined with a single separator. -/
def ospathJoin (a b : String) : String :=
  if b.startsWith "/" then b
  else if a = "" then b
  else if a.endsWith "/" then a ++ b
  else a ++ "/" ++ b

/-- Embedding of the directory loop of `get_files` (lines 293-305 of
`ae-score.py`): for each listed entry, a subdirectory is recursed into
(the source calls `get_files(full_file)`, which re-dispatches to this
directory loop), a file is kept iff the joined path passes `extOk`. -/
def getFilesList (path : String) : List FSEntry → List String
  | [] => []
  | FSEntry.file name :: rest =>
      (if extOk (ospathJoin path name) then [ospathJoin path name] else [])
        ++ getFilesList path rest
  | FSEntry.dir name sub :: rest =>
      getFilesList (ospathJoin path name) sub ++ getFilesList path rest

/-- Embedding of `get_files` (lines 290-312 of `ae-score.py`).  The
source's single-file branch tests and returns the GLOBAL
`args.image_file_or_dir` rather than its own argument; the embedding
keeps both, and `main` calls it with the two equal (the recursive calls
of the source never reach the single-file branch, because only
subdirectories are recursed into). -/
def get_files (args_image_file_or_dir : String) (file_or_dir : String)
    (t : FSEntry) : List String :=
  match t with
  | FSEntry.dir _ children => getFilesList file_or_dir children
  | FSEntry.file _ =>
      if extOk args_image_file_or_dir then [args_image_file_or_dir] else []

/-- Specification-side catalogue: every file path of the tree, qualified
or not, in traversal order.  `treePaths path t` for a single file is just
`[path]`. -/
def treePathsList (path : String) : List FSEntry → List String
  | [] => []
  | FSEntry.file name :: rest =>
      ospathJoin path name :: treePathsList path rest
  | FSEntry.dir name sub :: rest =>
      treePathsList (ospathJoin path name) sub ++ treePathsList path rest

/-- Specification-side catalogue of a whole target. -/
def treePaths (path : String) (t : FSEntry) : List String :=
  match t with
  | FSEntry.file _ => [path]
  | FSEntry.dir _ children => treePathsList path children

/-- The masked assignment `l2[l2 == 0] = 1` of `normalized`
(line 138 of `ae-score.py`), per entry. -/
def guardZero (x : ℚ) : ℚ := if x = 0 then 1 else x

/-- Embedding of `normalized` (lines 134-139 of `ae-score.py`) for the
2-D batch input it receives at line 147: `np.linalg.norm(a, 2, -1)`
computes one L2 norm per row, the zero norms are replaced by 1, and the
division broadcasts each row by its own guarded norm.  The L2 norm of a
rational vector is irrational in general, so the norm is an explicit
function parameter; the claim constrains it only at zero-norm rows,
where any faithful norm returns 0. -/
def normalized (norm : List ℚ → ℚ) (a : List (List ℚ)) : List (List ℚ) :=
  a.map (fun row => row.map (fun x => x / guardZero (norm row)))

/-- The comparison used by the aggregator sort: Python
`sorted(scores, key=lambda x: x["score"], reverse=True)` (line 270 of
`ae-score.py`) is a stable sort into descending score order, i.e. a
stable sort under the relation "left score is at least right score". -/
def scoreDescLe (a b : ScoreRecord) : Bool := decide (b.score ≤ a.score)

/-- Embedding of line 270: stable descending sort of the records. -/
def sortScores (scores : List ScoreRecord) : List ScoreRecord :=
  scores.mergeSort scoreDescLe

/-- One CSV data row of `save_to_csv` (lines 326-329 of `ae-score.py`):
the file path joined with the optional prefix, then the score value. -/
def csvRow (full_path : String) (r : ScoreRecord) : String :=
  ospathJoin full_path r.file ++ "," ++ toString r.score

/-- Embedding of `save_to_csv` (lines 315-331 of `ae-score.py`) as the
lines of the produced file: the `DictWriter` header `file,score`
followed by one row per record, in the order of the `scores` argument. -/
def save_to_csv (scores : List ScoreRecord) (full_path : String) :
    List String :=
  "file,score" :: scores.map (csvRow full_path)

/-- Observable outcome of the aggregation tail of `main`: whether the
"no scores" message was printed, the reported average (absent when not
computed), and the lines of the CSV file (absent when none is written). -/
structure AggregateOutput where
  printedNoScores : Bool
  mean : Option ℚ
  csv : Option (List String)

/-- Embedding of lines 270-287 of `ae-score.py`: sort descending, fold
the scores of the SORTED list into `acc_scores`, and if any record
exists optionally write the UNSORTED original-order records to CSV and
report `acc_scores / len(sorted_scores)`; otherwise print the
"no scores" message and do nothing else. -/
def aggregate (scores : List ScoreRecord) (save_csv store_full_path : Bool)
    (image_file_or_dir : String) : AggregateOutput :=
  let sorted_scores := sortScores scores
  let acc_scores : ℚ := sorted_scores.foldl (fun acc s => acc + s.score) 0
  if 0 < sorted_scores.length then
    let full_path := if store_full_path then image_file_or_dir else ""
    { printedNoScores := false,
      mean := some (acc_scores / (sorted_scores.length : ℚ)),
      csv := if save_csv then some (save_to_csv scores full_path) else none }
  else
    { printedNoScores := true, mean := none, csv := none }

/-- Embedding of the topology sizing of `load_model` (lines 117-122 of
`ae-score.py`): the Python substring tests `"ViT-L" in clip_model` /
`"ViT-B" in clip_model` become infix tests on the character lists. -/
def inferInputSize (clip_model : String) : Nat :=
  if "ViT-L".toList <:+: clip_model.toList then 768
  else if "ViT-B".toList <:+: clip_model.toList then 512
  else 768

/-- Embedding of `get_device` (lines 209-213 of `ae-score.py`).  The CLI
default for `--device` is `None`, so the field is an `Option String`;
the source compares `args.device == str()` — only the empty STRING takes
the first branch (Python `None == ""` is `False`), every other value
falls through to auto-detection.  `torch.device(name)` is modelled by
the device string itself. -/
def get_device (device : Option String) (cuda_available : Bool) : String :=
  if device = some "" then ""
  else if cuda_available then "cuda" else "cpu"

/-- Claim C1, counterexample: the claim says acquisition fails for EVERY
checkpoint name outside the known set, but `ensure_model` checks the name
only when the cache file is absent.  With a file `nonexistent-model.pth`
already present in the cache directory, the unknown name
`nonexistent-model` succeeds silently instead of failing. -/
theorem C1_counterexample :
    ("nonexistent-model" ∉ model_to_host.map Prod.fst) ∧
    (ensure_model "nonexistent-model" ["nonexistent-model.pth"]).result
      = Except.ok () := by
  constructor
  · decide
  · rfl

/-- Claim C1 (amended): for every checkpoint name not in the known model
set, PROVIDED its cache file is absent, acquisition fails with the
`invalid model` error whose message enumerates the valid model names,
no network call is attempted and no file is written to the cache. -/
theorem C1_invalid_model_fails (model : String) (cache : List String)
    (hunknown : model_to_host.lookup model = none)
    (habsent : (model ++ ".pth") ∉ cache) :
    ensure_model model cache =
      { netCalls := [], writes := [],
        result := Except.error
          ("invalid model: " ++ model ++ ". try one of these: " ++
            "chadscorer, sac+logos+ava1-l14-linearMSE") } := by
  unfold ensure_model
  rw [if_neg (by simpa using habsent), hunknown]
  rfl

/-- Claim C1 witness: the unknown name `bogus` with an empty cache hits
the amended theorem; hypotheses are discharged by evaluation. -/
theorem C1_witness :
    ensure_model "bogus" [] =
      { netCalls := [], writes := [],
        result := Except.error
          ("invalid model: bogus. try one of these: chadscorer, sac+logos+ava1-l14-linearMSE") } := by
  exact C1_invalid_model_fails "bogus" [] (by decide) (by decide)

/-- Every chunk produced by `chunks` with a positive size is non-empty. -/
theorem chunks_mem_ne_nil (lst : List α) (n : Nat) :
    1 ≤ n → ∀ c ∈ chunks lst n, c ≠ [] := by
  induction lst, n using chunks.induct with
  | case1 lst n h =>
      intro hn c hc
      rw [chunks, if_pos h] at hc
      simp at hc
  | case2 lst h =>
      intro hn
      omega
  | case3 lst n h h0 ih =>
      intro hn c hc
      rw [chunks, if_neg h, if_neg h0] at hc
      rcases List.mem_cons.mp hc with hhead | htail
      · subst hhead
        intro hemp
        cases lst with
        | nil => simp at h
        | cons a t =>
            cases n with
            | zero => exact absurd rfl h0
            | succ m => simp at hemp
      · exact ih hn c htail

/-- Auxiliary: with the progress bar shown (`no_progress = false`) the
scoring fold never errors and returns the accumulated records of every
chunk in order. -/
theorem run_scoring_ok_aux (score : String → ℚ) (cs : List (List String))
    (acc : List ScoreRecord) :
    cs.foldlM
      (fun acc files_s =>
        let acc := acc ++ chunkRecords score files_s
        if false = true then
          Except.error "NameError: name progress_bar is not defined"
        else
          Except.ok acc)
      acc
      = Except.ok (acc ++ cs.flatMap (chunkRecords score)) := by
  induction cs generalizing acc with
  | nil => simp; rfl
  | cons c rest ih =>
      rw [List.foldlM_cons]
      show rest.foldlM _ (acc ++ chunkRecords score c) = _
      rw [ih]
      simp [List.append_assoc]

/-- Claim C2: with the default progress display, the batch scorer
succeeds and emits, chunk by chunk, the records of `chunkRecords`; and
for every chunk, each emitted record pairs the score computed from the
chunk's i-th file with the chunk's LAST file name (the value left in the
enclosing loop variable by the inner decode loop), not with the file the
score was computed from. -/
theorem C2_scores_pair_last_file (score : String → ℚ) (files : List String)
    (n : Nat) (hn : 1 ≤ n) :
    run_scoring score false files n
      = Except.ok ((chunks files n).flatMap (chunkRecords score)) ∧
    ∀ c ∈ chunks files n, ∃ h : c ≠ [],
      chunkRecords score c
        = c.map (fun f => { file := c.getLast h, score := score f }) := by
  constructor
  · unfold run_scoring
    rw [run_scoring_ok_aux score (chunks files n) [], List.nil_append]
  · intro c hc
    have hne := chunks_mem_ne_nil files n hn c hc
    refine ⟨hne, ?_⟩
    unfold chunkRecords
    rw [List.getLast?_eq_getLast c hne]
    simp [List.map_map]

/-- Claim C2 witness: three files scored in chunks of two; the first
chunk emits both of its records under the file name of its last element. -/
theorem C2_witness :
    (run_scoring (fun _ => (0 : ℚ)) false ["a", "b", "c"] 2
      = Except.ok ((chunks ["a", "b", "c"] 2).flatMap
          (chunkRecords (fun _ => (0 : ℚ))))) ∧
    (∃ h : ["a", "b"] ≠ ([] : List String),
      chunkRecords (fun _ => (0 : ℚ)) ["a", "b"]
        = ["a", "b"].map
            (fun _f => { file := ["a", "b"].getLast h, score := (0 : ℚ) })) :=
  ⟨(C2_scores_pair_last_file (fun _ => (0 : ℚ)) ["a", "b", "c"] 2
      (by decide)).1,
   (C2_scores_pair_last_file (fun _ => (0 : ℚ)) ["a", "b", "c"] 2
      (by decide)).2 ["a", "b"] (by simp [chunks])⟩

/-- Claim C10: with `no_progress` set and at least one discovered file,
the scoring loop aborts on its first chunk with an undefined-name error:
the progress bar was never created, yet its postfix update runs
unconditionally. -/
theorem C10_no_progress_aborts (score : String → ℚ) (files : List String)
    (n : Nat) (hn : 1 ≤ n) (hfiles : files ≠ []) :
    run_scoring score true files n
      = Except.error "NameError: name progress_bar is not defined" := by
  unfold run_scoring
  have hstep : chunks files n = files.take n :: chunks (files.drop n) n := by
    rw [chunks, if_neg (by simpa using hfiles), if_neg (by omega)]
  rw [hstep, List.foldlM_cons]
  rfl

/-- Claim C10 witness: a single file with the progress bar disabled
aborts with the undefined-name error. -/
theorem C10_witness :
    run_scoring (fun _ => (0 : ℚ)) true ["a.jpg"] 5
      = Except.error "NameError: name progress_bar is not defined" :=
  C10_no_progress_aborts (fun _ => (0 : ℚ)) ["a.jpg"] 5 (by decide) (by decide)

/-- Auxiliary for C3: the directory walk returns exactly the allow-listed
files of the directory and of every subdirectory, in traversal order. -/
theorem getFilesList_eq_filter (path : String) (l : List FSEntry) :
    getFilesList path l = (treePathsList path l).filter extOk := by
  induction path, l using getFilesList.induct with
  | case1 path => simp [getFilesList, treePathsList]
  | case2 path name rest ih =>
      rw [getFilesList, treePathsList, List.filter_cons, ih]
      cases h : extOk (ospathJoin path name) <;> simp [h]
  | case3 path name sub rest ih1 ih2 =>
      rw [getFilesList, treePathsList, List.filter_append, ih1, ih2]

/-- Claim C3: `discover` applied the way `main` applies it (both path
arguments equal) returns a singleton iff a single-file target passes the
case-insensitive extension allow-list, and for a directory returns
exactly the allow-list-matching files of the whole tree and no
non-matching file: it equals the full path catalogue filtered by
`extOk`. -/
theorem C3_discover_filters_allowlist (path : String) (t : FSEntry) :
    get_files path path t = (treePaths path t).filter extOk := by
  cases t with
  | file name =>
      unfold get_files treePaths
      cases h : extOk path <;> simp [List.filter_cons, h]
  | dir name children =>
      exact getFilesList_eq_filter path children

/-- Claim C4: a row whose L2 norm is zero is returned unchanged — the
zero norm is replaced by 1 before dividing — and the division is by a
nonzero rational, so no undefined value arises and the batch shape is
preserved. -/
theorem C4_zero_norm_unchanged (norm : List ℚ → ℚ) (a : List (List ℚ))
    (i : Nat) (hi : i < a.length) (h0 : norm a[i] = 0) :
    (normalized norm a).length = a.length ∧
    (normalized norm a)[i]? = some a[i] ∧
    guardZero (norm a[i]) = 1 := by
  refine ⟨List.length_map a _, ?_, ?_⟩
  · unfold normalized
    rw [List.getElem?_map, List.getElem?_eq_getElem hi]
    simp [guardZero, h0]
  · simp [guardZero, h0]

/-- Claim C4 witness: the zero row of a concrete batch is unchanged
under a concrete L2-compatible norm (here the sum of squares, which
vanishes exactly where the L2 norm does). -/
theorem C4_witness :
    (normalized (fun v => (v.map (fun x => x * x)).sum)
        [[0, 0], [1, 2]]).length = 2 ∧
    (normalized (fun v => (v.map (fun x => x * x)).sum)
        [[0, 0], [1, 2]])[0]? = some [0, 0] ∧
    guardZero ((fun (v : List ℚ) => (v.map (fun x => x * x)).sum) [0, 0]) = 1 := by
  exact C4_zero_norm_unchanged (fun v => (v.map (fun x => x * x)).sum)
    [[0, 0], [1, 2]] 0 (by decide) (by norm_num)

/-- The sort comparison is transitive. -/
theorem scoreDescLe_trans (a b c : ScoreRecord) :
    scoreDescLe a b → scoreDescLe b c → scoreDescLe a c := by
  simp only [scoreDescLe, decide_eq_true_eq]
  exact fun h1 h2 => le_trans h2 h1

/-- The sort comparison is total. -/
theorem scoreDescLe_total (a b : ScoreRecord) :
    scoreDescLe a b || scoreDescLe b a := by
  simp only [scoreDescLe, Bool.or_eq_true, decide_eq_true_eq]
  exact le_total b.score a.score

/-- Claim C5: the aggregator sort returns a permutation of the records
in descending score order; it is stable on ties — any subsequence of
equal-scored records survives as a subsequence, keeping its original
relative order — and sorting an already-descending sequence returns it
unchanged. -/
theorem C5_sort_descending_stable (l : List ScoreRecord) :
    (sortScores l).Pairwise (fun a b => b.score ≤ a.score) ∧
    (sortScores l).Perm l ∧
    (∀ c : List ScoreRecord, c.Sublist l →
      c.Pairwise (fun a b => a.score = b.score) → c.Sublist (sortScores l)) ∧
    (l.Pairwise (fun a b => b.score ≤ a.score) → sortScores l = l) := by
  refine ⟨?_, ?_, ?_, ?_⟩
  · exact (List.sorted_mergeSort scoreDescLe_trans scoreDescLe_total l).imp
      (fun h => by simpa [scoreDescLe] using h)
  · exact List.mergeSort_perm l scoreDescLe
  · intro c hsub heq
    exact List.sublist_mergeSort scoreDescLe_trans scoreDescLe_total
      (heq.imp (fun h => by simp [scoreDescLe, h])) hsub
  · intro hsorted
    exact List.mergeSort_of_sorted
      (hsorted.imp (fun h => by simpa [scoreDescLe] using h))

/-- Claim C5 witness: two equal-scored records keep their relative order
through the sort, and the already-descending two-record list is returned
unchanged. -/
theorem C5_witness :
    (([⟨"a", 1⟩, ⟨"b", 1⟩] : List ScoreRecord).Sublist
      (sortScores [⟨"a", 1⟩, ⟨"b", 1⟩])) ∧
    sortScores [⟨"a", 1⟩, ⟨"b", 1⟩] = [⟨"a", 1⟩, ⟨"b", 1⟩] :=
  ⟨(C5_sort_descending_stable [⟨"a", 1⟩, ⟨"b", 1⟩]).2.2.1
      [⟨"a", 1⟩, ⟨"b", 1⟩] (List.Sublist.refl _) (by decide),
   (C5_sort_descending_stable [⟨"a", 1⟩, ⟨"b", 1⟩]).2.2.2 (by decide)⟩

/-- Folding score additions from an initial accumulator sums the
scores. -/
theorem foldl_scores_eq_sum (l : List ScoreRecord) (init : ℚ) :
    l.foldl (fun acc s => acc + s.score) init
      = init + (l.map (fun s => s.score)).sum := by
  induction l generalizing init with
  | nil => simp
  | cons a t ih => simp [ih, add_assoc]

/-- Claim C6: empty record sequences report "no scores", compute no mean
and write no CSV; non-empty sequences report the arithmetic mean — the
sum of all scores divided by the record count — even though the source
folds over the sorted copy. -/
theorem C6_empty_report_and_mean (scores : List ScoreRecord)
    (save_csv store_full_path : Bool) (image_file_or_dir : String) :
    (scores = [] →
      (aggregate scores save_csv store_full_path image_file_or_dir)
        = { printedNoScores := true, mean := none, csv := none }) ∧
    (scores ≠ [] →
      (aggregate scores save_csv store_full_path image_file_or_dir).mean
        = some ((scores.map (fun s => s.score)).sum / (scores.length : ℚ))) := by
  constructor
  · intro h
    subst h
    simp [aggregate, sortScores]
  · intro h
    have hperm : (sortScores scores).Perm scores :=
      List.mergeSort_perm scores scoreDescLe
    have hlen : (sortScores scores).length = scores.length := hperm.length_eq
    have hsum : ((sortScores scores).map (fun s => s.score)).sum
        = (scores.map (fun s => s.score)).sum :=
      (hperm.map (fun s => s.score)).sum_eq
    unfold aggregate
    rw [if_pos (by
      rw [hlen]
      exact List.length_pos.mpr h)]
    simp only [foldl_scores_eq_sum, zero_add, hsum, hlen]

/-- Claim C6 witness: the empty sequence reports "no scores" with no
mean and no CSV; a concrete two-record sequence reports the arithmetic
mean of its scores. -/
theorem C6_witness :
    (aggregate [] true false "imgs"
      = { printedNoScores := true, mean := none, csv := none }) ∧
    (aggregate [⟨"a", 1⟩, ⟨"b", 2⟩] false false "imgs").mean
      = some ((([⟨"a", 1⟩, ⟨"b", 2⟩] : List ScoreRecord).map
          (fun s => s.score)).sum / 2) :=
  ⟨(C6_empty_report_and_mean [] true false "imgs").1 rfl,
   (C6_empty_report_and_mean [⟨"a", 1⟩, ⟨"b", 2⟩] false false "imgs").2
     (by simp)⟩

/-- Claim C7: when CSV saving is enabled and records exist, the file
contains the header `file,score` followed by one row per record in the
records' ORIGINAL pre-sort order, each path joined with the optional
prefix; the file has exactly one more line than there are records. -/
theorem C7_csv_original_order (scores : List ScoreRecord)
    (store_full_path : Bool) (image_file_or_dir : String)
    (h : scores ≠ []) :
    (aggregate scores true store_full_path image_file_or_dir).csv
      = some ("file,score" ::
          scores.map (csvRow (if store_full_path then image_file_or_dir else ""))) ∧
    ∀ lines,
      (aggregate scores true store_full_path image_file_or_dir).csv
          = some lines →
      lines.length = scores.length + 1 := by
  have hlen : (sortScores scores).length = scores.length :=
    (List.mergeSort_perm scores scoreDescLe).length_eq
  have hcsv : (aggregate scores true store_full_path image_file_or_dir).csv
      = some ("file,score" ::
          scores.map (csvRow (if store_full_path then image_file_or_dir else ""))) := by
    unfold aggregate
    rw [if_pos (by
      rw [hlen]
      exact List.length_pos.mpr h)]
    rfl
  refine ⟨hcsv, fun lines hl => ?_⟩
  rw [hcsv] at hl
  cases hl
  simp

/-- Claim C7 witness: two scored files produce a three-line CSV whose
rows follow the records' original order. -/
theorem C7_witness :
    (aggregate [⟨"b.png", 2⟩, ⟨"a.png", 1⟩] true false "imgs").csv
      = some ("file,score" ::
          ([⟨"b.png", 2⟩, ⟨"a.png", 1⟩] : List ScoreRecord).map (csvRow "")) ∧
    ("file,score" ::
        ([⟨"b.png", 2⟩, ⟨"a.png", 1⟩] : List ScoreRecord).map (csvRow "")).length
      = 3 :=
  ⟨(C7_csv_original_order [⟨"b.png", 2⟩, ⟨"a.png", 1⟩] false "imgs"
      (by simp)).1,
   (C7_csv_original_order [⟨"b.png", 2⟩, ⟨"a.png", 1⟩] false "imgs"
      (by simp)).2 _
     (C7_csv_original_order [⟨"b.png", 2⟩, ⟨"a.png", 1⟩] false "imgs"
      (by simp)).1⟩

/-- Claim C8: any encoder name containing `ViT-L` yields a 768-input
topology; otherwise any name containing `ViT-B` yields 512; any other
name defaults to 768. -/
theorem C8_input_size_by_substring (clip_model : String) :
    ("ViT-L".toList <:+: clip_model.toList → inferInputSize clip_model = 768) ∧
    (¬ ("ViT-L".toList <:+: clip_model.toList) →
      "ViT-B".toList <:+: clip_model.toList → inferInputSize clip_model = 512) ∧
    (¬ ("ViT-L".toList <:+: clip_model.toList) →
      ¬ ("ViT-B".toList <:+: clip_model.toList) →
      inferInputSize clip_model = 768) := by
  refine ⟨fun hL => ?_, fun hL hB => ?_, fun hL hB => ?_⟩
  · rw [inferInputSize, if_pos hL]
  · rw [inferInputSize, if_neg hL, if_pos hB]
  · rw [inferInputSize, if_neg hL, if_neg hB]

/-- Claim C8 witness: the three cases at the shipped encoder names
`ViT-L/14@336px`, `ViT-B/32` and an unrecognized `RN50`. -/
theorem C8_witness :
    inferInputSize "ViT-L/14@336px" = 768 ∧
    inferInputSize "ViT-B/32" = 512 ∧
    inferInputSize "RN50" = 768 :=
  ⟨(C8_input_size_by_substring "ViT-L/14@336px").1 (by decide),
   (C8_input_size_by_substring "ViT-B/32").2.1 (by decide) (by decide),
   (C8_input_size_by_substring "RN50").2.2 (by decide) (by decide)⟩

/-- Claim C9: for every configured device other than the empty string —
including the default `None` and explicit values such as `cpu` or
`cuda:0` — resolution ignores the configured value and returns the
auto-detected device, so two runs differing only in such a device field
resolve identically. -/
theorem C9_device_ignored (device : Option String) (cuda_available : Bool)
    (h : device ≠ some "") :
    get_device device cuda_available
        = (if cuda_available then "cuda" else "cpu") ∧
    ∀ device2 : Option String, device2 ≠ some "" →
      get_device device cuda_available = get_device device2 cuda_available := by
  have h1 : get_device device cuda_available
      = (if cuda_available then "cuda" else "cpu") := by
    rw [get_device, if_neg h]
  refine ⟨h1, fun device2 h2 => ?_⟩
  rw [h1, get_device, if_neg h2]

/-- Claim C9 witness: the default `None` and an explicit `cpu` request
both resolve to the auto-detected device. -/
theorem C9_witness :
    get_device none true = "cuda" ∧
    get_device none true = get_device (some "cpu") true :=
  ⟨(C9_device_ignored none true (by decide)).1,
   (C9_device_ignored none true (by decide)).2 (some "cpu") (by decide)⟩
